import Mathlib

/-!
A verification development for a contact-tracing synthetic-data generator.

The generator simulates the spread of an infection through a synthetic
population over a number of days.  Its state machine (`PeopleTracker`)
owns a population of `PersonProfile`s, a pool of `LocationProfile`s and a
growing set of infected people.  Each simulated day assigns every person
to a random location, updates infections per location group using the
pure `get_infection_probability` model, and returns one `PersonDay`
record per person, sorted by (location category ordinal, location id,
person id).

Randomness in the source (`random.random()`, `random.choice`,
`random.randint`, `random.sample`) is modelled by explicit oracle
arguments: streams of rational draws in place of `random.random()`, an
index-choosing function in place of `random.choice`, and so on.  Python
floats are modelled by rationals; Python's `set` of persons (hashed and
compared by id) is modelled by a `Finset ℕ` of ids; a dict grouping is
modelled by an insertion-ordered association list.  The possibility that
the probability model reads an unassigned local variable (a `NameError`
on an unmatched location category) is modelled by `Option`.
-/

namespace ContactTracing

/-- The six location categories of the `Location` enum, with their
Python `Enum` ordinal values 1..6. -/
inductive Location where
  | livingRoom
  | restaurantTable
  | indoorParty
  | conferenceRoom
  | classroom
  | outdoorHike
deriving DecidableEq

/-- Translation of `Location.value`: the Python enum ordinal of each category. -/
def Location.value : Location → Nat
  | .livingRoom => 1
  | .restaurantTable => 2
  | .indoorParty => 3
  | .conferenceRoom => 4
  | .classroom => 5
  | .outdoorHike => 6

/-- Translation of `list(Location)`: the categories in enum declaration order. -/
def allLocations : List Location :=
  [.livingRoom, .restaurantTable, .indoorParty, .conferenceRoom, .classroom, .outdoorHike]

/-- Translation of `LocationProfile`: one venue instance of a category, with a
per-category-local id. -/
structure LocationProfile where
  id : Nat
  location : Location
deriving DecidableEq

/-- Translation of `PersonProfile`: a simulated individual.  The mask / distancing
propensities are fixed at construction from the high/low tiers. -/
structure PersonProfile where
  id : Nat
  mask_prob : ℚ
  social_distancing_prob : ℚ
deriving DecidableEq

/-- The sequential `if location is ...: location_prob = ...` chain of
`get_infection_probability`.  `none` models the variable staying
unassigned (which in Python would raise `NameError` at the use site). -/
def location_prob_assign (location : Location) : Option ℚ :=
  let p : Option ℚ := none
  let p := if location = Location.livingRoom then some 0.4 else p
  let p := if location = Location.restaurantTable then some 0.3 else p
  let p := if location = Location.indoorParty then some 0.25 else p
  let p := if location = Location.conferenceRoom then some 0.2 else p
  let p := if location = Location.classroom then some 0.15 else p
  p

/-- Translation of `InfectionProbabilitiesMapper.get_infection_probability`, translated
clause by clause.  Returns `none` exactly when the Python function would
reach the final expression with `location_prob` unassigned. -/
def get_infection_probability (location : LocationProfile) (infected_count : Nat)
    (wearing_mask social_distancing : Bool) : Option ℚ :=
  let loc := location.location
  if infected_count = 0 ∨ loc = Location.outdoorHike then some 0
  else if loc = Location.outdoorHike then some 0.01
  else
    match location_prob_assign loc with
    | none => none
    | some location_prob =>
      let infected_mask_prob : ℚ := if wearing_mask then 0.03 else 0.9
      let infected_social_distancing_prob : ℚ := if social_distancing then 0.05 else 0.7
      some ((0.5 * location_prob + 0.3 * infected_mask_prob +
          0.2 * infected_social_distancing_prob) *
        (1 + ((min 10 infected_count : Nat) : ℚ) / 10 * 0.5) / 4)

/-- Translation of `PersonDay`: one output record, one person's day at one place. -/
structure PersonDay where
  day : Nat
  person : PersonProfile
  place : LocationProfile
  pre_visit_covid : Bool
  post_visit_covid : Bool
  mask : Bool
  social_distancing : Bool
deriving DecidableEq

/-- The three `random.random()` draws consumed while processing one
person in `update_infection`: the mask draw, the distancing draw, and
the infection draw. -/
structure Draw where
  mask_rand : ℚ
  social_distancing_rand : ℚ
  infection_rand : ℚ

/-- The mutable state threaded through `update_infection`: the day
summary built so far and the infected set (a Python set of persons
hashed by id, hence a `Finset` of ids). -/
structure DayState where
  day_summary : List PersonDay
  infected_population : Finset Nat

/-- The branch of `update_infection` that decides `pre_covid` and
`post_covid` for one person, given the location's infected count and
the current infected set. -/
def person_outcome (infected_count_in_location : Nat) (infected : Finset Nat)
    (location : LocationProfile) (person : PersonProfile)
    (wore_mask social_distanced : Bool) (infection_rand : ℚ) : Bool × Bool :=
  if infected_count_in_location = 0 ∧ person.id ∉ infected then
    (false, false)
  else if person.id ∈ infected then
    (true, true)
  else
    let infection_probability :=
      (get_infection_probability location infected_count_in_location wore_mask
        social_distanced).getD 0
    (false, decide (infection_rand < infection_probability))

/-- The body of the inner `for person in people_in_location` loop of
`update_infection`: draw behaviour, decide pre/post, add to the
infected set on a positive outcome, and append the record. -/
def process_person (day : Nat) (location : LocationProfile)
    (infected_count_in_location : Nat) (oracle : Nat → Draw)
    (st : DayState) (person : PersonProfile) : DayState :=
  let d := oracle person.id
  let wore_mask := decide (d.mask_rand < person.mask_prob)
  let social_distanced := decide (d.social_distancing_rand < person.social_distancing_prob)
  let outcome := person_outcome infected_count_in_location st.infected_population
    location person wore_mask social_distanced d.infection_rand
  { day_summary := st.day_summary ++
      [{ day := day, person := person, place := location,
         pre_visit_covid := outcome.1, post_visit_covid := outcome.2,
         mask := wore_mask, social_distancing := social_distanced }],
    infected_population :=
      if outcome.2 then insert person.id st.infected_population
      else st.infected_population }

/-- The body of the outer `for location in group_by_locations` loop of
`update_infection`: count the infected occupants against the current
infected set, then process each occupant. -/
def process_location (day : Nat) (oracle : Nat → Draw) (st : DayState)
    (group : LocationProfile × List PersonProfile) : DayState :=
  let infected_count_in_location :=
    (group.2.filter (fun p => decide (p.id ∈ st.infected_population))).length
  group.2.foldl (process_person day group.1 infected_count_in_location oracle) st

/-- The `(category ordinal, location id, person id)` sort key of the
day summary. -/
def record_key (r : PersonDay) : Nat × Nat × Nat :=
  (r.place.location.value, r.place.id, r.person.id)

/-- Non-strict lexicographic comparison of sort keys, as used by the
stable `list.sort`. -/
def key_le (a b : Nat × Nat × Nat) : Bool :=
  decide (a.1 < b.1 ∨ (a.1 = b.1 ∧
    (a.2.1 < b.2.1 ∨ (a.2.1 = b.2.1 ∧ a.2.2 ≤ b.2.2))))

/-- Translation of `PeopleTracker.update_infection`: process every location group in
order against the shared infected set, then sort the collected records
by `(category ordinal, location id, person id)`.  Returns the sorted
summary and the updated infected set. -/
def update_infection (day : Nat)
    (group_by_locations : List (LocationProfile × List PersonProfile))
    (infected : Finset Nat) (oracle : Nat → Draw) :
    List PersonDay × Finset Nat :=
  let st := group_by_locations.foldl (process_location day oracle)
    { day_summary := [], infected_population := infected }
  (st.day_summary.mergeSort (fun a b => key_le (record_key a) (record_key b)),
    st.infected_population)

/-- Translation of `dict.setdefault(location, []).append(person)` on an
insertion-ordered association list keyed by location instance. -/
def group_insert (groups : List (LocationProfile × List PersonProfile))
    (location : LocationProfile) (person : PersonProfile) :
    List (LocationProfile × List PersonProfile) :=
  match groups with
  | [] => [(location, [person])]
  | (k, ps) :: rest =>
    if k = location then (k, ps ++ [person]) :: rest
    else (k, ps) :: group_insert rest location person

/-- Translation of `PeopleTracker.determine_locations`, the grouping half: each person
(in population order) is assigned the location instance chosen by the
`random.choice` oracle and appended to that instance's group.  (The
`location_assignment` dict of the source is derivable from the grouping
and is not consumed by `simulate_day`, so it is not materialised.) -/
def determine_locations (population : List PersonProfile)
    (available_locations : List LocationProfile) (choice : Nat → Nat) :
    List (LocationProfile × List PersonProfile) :=
  population.foldl
    (fun groups person =>
      group_insert groups
        (available_locations.getD (choice person.id) { id := 0, location := Location.livingRoom })
        person)
    []

/-- Translation of `PeopleTracker`: the core state machine. -/
structure PeopleTracker where
  simulated_day : Nat
  population : List PersonProfile
  available_locations : List LocationProfile
  infected_population : Finset Nat

/-- Translation of `PeopleTracker.simulate_day`: assign locations, update infections,
advance the day counter.  Returns the day summary and the new tracker
state. -/
def simulate_day (t : PeopleTracker) (choice : Nat → Nat) (oracle : Nat → Draw) :
    List PersonDay × PeopleTracker :=
  let grouped_location := determine_locations t.population t.available_locations choice
  let result := update_infection t.simulated_day grouped_location t.infected_population oracle
  (result.1,
    { t with simulated_day := t.simulated_day + 1, infected_population := result.2 })

/-- Translation of `PeopleTracker.generate_population`: `range` of a negative count is
empty, hence `Int.toNat`.  The mask / distancing tier of person `i` is
chosen by comparing the `i`-th `random.random()` draw with the global
rate. -/
def generate_population (population_count : Int)
    (mask_wearing_rate social_distancing_rate : ℚ)
    (mask_rand sd_rand : Nat → ℚ) : List PersonProfile :=
  (List.range population_count.toNat).map fun i =>
    let likely_wear_mask := mask_rand i < mask_wearing_rate
    let likely_social_distancing := sd_rand i < social_distancing_rate
    { id := i,
      mask_prob := if likely_wear_mask then 0.7 else 0.2,
      social_distancing_prob := if likely_social_distancing then 0.6 else 0.1 }

/-- Translation of `PeopleTracker.generate_available_locations`: for each category in
enum order, `random.randint(1, 5)` many instances with local ids from
`0`.  The `randint` draw is modelled as `1 + r % 5 ∈ [1, 5]`. -/
def generate_available_locations (randint_draw : Location → Nat) : List LocationProfile :=
  allLocations.foldl
    (fun acc location =>
      acc ++ (List.range (1 + randint_draw location % 5)).map
        (fun i => { id := i, location := location }))
    []

/-- Python `int(x)` on a rational: truncation toward zero. -/
def int_trunc (x : ℚ) : Int := x.num.tdiv (x.den : Int)

/-- The recursive worker of `random.sample`: pick `k` distinct elements
by repeatedly removing a picked index from the pool. -/
def sample_go (pick : Nat → Nat) : Nat → List PersonProfile → List PersonProfile
  | 0, _ => []
  | Nat.succ n, pool =>
    let i := pick n % pool.length
    pool.getD i { id := 0, mask_prob := 0, social_distancing_prob := 0 } ::
      sample_go pick n (pool.eraseIdx i)

/-- Translation of `random.sample(population, k)`: raises `ValueError` unless
`0 ≤ k ≤ len(population)`. -/
def sample (population : List PersonProfile) (k : Int) (pick : Nat → Nat) :
    Except String (List PersonProfile) :=
  if k < 0 ∨ (population.length : Int) < k then
    Except.error "Sample larger than population or is negative"
  else
    Except.ok (sample_go pick k.toNat population)

/-- Translation of `PeopleTracker.get_initial_infected_population`: sample
`int(len(population) * initial_infection_rate)` people. -/
def get_initial_infected_population (population : List PersonProfile)
    (initial_infection_rate : ℚ) (pick : Nat → Nat) :
    Except String (List PersonProfile) :=
  let initial_infected_population :=
    int_trunc ((population.length : ℚ) * initial_infection_rate)
  sample population initial_infected_population pick

/-- Translation of `PeopleTracker.__init__`: build the population and the location
pool, then sample the initially infected.  A `ValueError` escaping
`random.sample` is the only failure; the constructor itself performs no
validation of its arguments. -/
def PeopleTracker.init (population_count : Int)
    (initial_infection_rate mask_wearing_rate social_distancing_rate : ℚ)
    (mask_rand sd_rand : Nat → ℚ) (randint_draw : Location → Nat)
    (pick : Nat → Nat) : Except String PeopleTracker :=
  let population := generate_population population_count mask_wearing_rate
    social_distancing_rate mask_rand sd_rand
  let available_locations := generate_available_locations randint_draw
  match get_initial_infected_population population initial_infection_rate pick with
  | Except.error e => Except.error e
  | Except.ok infected =>
    Except.ok
      { simulated_day := 0, population := population,
        available_locations := available_locations,
        infected_population := (infected.map PersonProfile.id).toFinset }


/-! ## The infection probability model -/

/-- Modelled from the spec's probability formula: the base location
factor table (LIVING_ROOM=0.4, RESTAURANT_TABLE=0.3, INDOOR_PARTY=0.25,
CONFERENCE_ROOM=0.2, CLASSROOM=0.15; the spec assigns no factor to
OUTDOOR_HIKE, which its rule 1 excludes). -/
def spec_location_factor : Location → ℚ
  | .livingRoom => 0.4
  | .restaurantTable => 0.3
  | .indoorParty => 0.25
  | .conferenceRoom => 0.2
  | .classroom => 0.15
  | .outdoorHike => 0

/-- Modelled from the spec's probability formula: the mask factor. -/
def spec_mask_factor (wearing_mask : Bool) : ℚ :=
  if wearing_mask then 0.03 else 0.9

/-- Modelled from the spec's probability formula: the distancing factor. -/
def spec_distancing_factor (social_distancing : Bool) : ℚ :=
  if social_distancing then 0.05 else 0.7

/-- Modelled from the spec's probability formula: the combination
`(0.5*location_factor + 0.3*mask_factor + 0.2*distancing_factor) *
(1 + min(10, infected_count)/10 * 0.5) / 4`. -/
def spec_probability (loc : Location) (infected_count : Nat)
    (wearing_mask social_distancing : Bool) : ℚ :=
  (0.5 * spec_location_factor loc + 0.3 * spec_mask_factor wearing_mask +
    0.2 * spec_distancing_factor social_distancing) *
  (1 + ((min 10 infected_count : Nat) : ℚ) / 10 * 0.5) / 4

/-- A two-person tracker on a single living-room venue, person 0
initially infected, used to witness the day-simulation claims on a
concrete state. -/
def witness_tracker : PeopleTracker :=
  { simulated_day := 0,
    population := [{ id := 0, mask_prob := 1, social_distancing_prob := 1 },
                   { id := 1, mask_prob := 0, social_distancing_prob := 0 }],
    available_locations := [{ id := 0, location := Location.livingRoom }],
    infected_population := {0} }

/-- A concrete assignment oracle sending everyone to location index 0. -/
def witness_choice : Nat → Nat := fun _ => 0

/-- A concrete stream of behaviour and infection draws. -/
def witness_oracle : Nat → Draw :=
  fun _ => { mask_rand := 1, social_distancing_rand := 1, infection_rand := 1 }

/-- A placeholder record for total list access in witness statements. -/
def witness_dummy_record : PersonDay :=
  { day := 0, person := { id := 0, mask_prob := 0, social_distancing_prob := 0 },
    place := { id := 0, location := Location.livingRoom },
    pre_visit_covid := false, post_visit_covid := false,
    mask := false, social_distancing := false }

/-- On every category other than OUTDOOR_HIKE the assignment chain sets
the location factor of the spec's table. -/
lemma location_prob_assign_eq (loc : Location) (h : loc ≠ Location.outdoorHike) :
    location_prob_assign loc = some (spec_location_factor loc) := by
  cases loc <;> simp_all [location_prob_assign, spec_location_factor]

/-- On a positive infected count at a category other than OUTDOOR_HIKE,
the code computes exactly the spec's formula. -/
lemma get_infection_probability_eq (location : LocationProfile) (infected_count : Nat)
    (wearing_mask social_distancing : Bool)
    (hloc : location.location ≠ Location.outdoorHike) (hcnt : infected_count ≠ 0) :
    get_infection_probability location infected_count wearing_mask social_distancing =
      some (spec_probability location.location infected_count wearing_mask social_distancing) := by
  rw [get_infection_probability]
  simp only [hcnt, hloc, or_self, if_false, location_prob_assign_eq _ hloc]
  simp [spec_probability, spec_mask_factor, spec_distancing_factor]

/-- C3: zero infected count, or the OUTDOOR_HIKE category, yields
probability 0; the 0.01 OUTDOOR_HIKE branch never produces the result. -/
theorem zero_probability_on_no_exposure (location : LocationProfile)
    (infected_count : Nat) (wearing_mask social_distancing : Bool) :
    (infected_count = 0 →
      get_infection_probability location infected_count wearing_mask social_distancing = some 0) ∧
    (location.location = Location.outdoorHike →
      get_infection_probability location infected_count wearing_mask social_distancing = some 0) := by
  constructor <;> intro h <;> simp [get_infection_probability, h]

/-- Witness for C3 at concrete inputs. -/
theorem zero_probability_on_no_exposure_witness :
    get_infection_probability { id := 0, location := Location.classroom } 0 false true = some 0 ∧
    get_infection_probability { id := 2, location := Location.outdoorHike } 9 true false = some 0 :=
  ⟨(zero_probability_on_no_exposure _ 0 false true).1 rfl,
   (zero_probability_on_no_exposure _ 9 true false).2 rfl⟩

/-- C4: away from the zero-count and OUTDOOR_HIKE guards, the code
returns exactly the spec's weighted-blend formula. -/
theorem probability_matches_spec_formula (location : LocationProfile)
    (infected_count : Nat) (wearing_mask social_distancing : Bool)
    (hloc : location.location ≠ Location.outdoorHike) (hcnt : 0 < infected_count) :
    get_infection_probability location infected_count wearing_mask social_distancing =
      some (spec_probability location.location infected_count wearing_mask social_distancing) :=
  get_infection_probability_eq location infected_count wearing_mask social_distancing hloc
    hcnt.ne'

/-- Witness for C4 at a concrete input. -/
theorem probability_matches_spec_formula_witness :
    ({ id := 0, location := Location.livingRoom } : LocationProfile).location ≠
        Location.outdoorHike ∧ 0 < 1 ∧
      get_infection_probability { id := 0, location := Location.livingRoom } 1 false false =
        some (spec_probability Location.livingRoom 1 false false) :=
  ⟨by decide, by decide,
    probability_matches_spec_formula { id := 0, location := Location.livingRoom } 1 false false
      (by decide) (by decide)⟩


/-- The weighted base blend lies between 0 and 0.61 for every category
and behaviour combination. -/
lemma spec_base_bounds (loc : Location) (wearing_mask social_distancing : Bool) :
    0 ≤ 0.5 * spec_location_factor loc + 0.3 * spec_mask_factor wearing_mask +
        0.2 * spec_distancing_factor social_distancing ∧
      0.5 * spec_location_factor loc + 0.3 * spec_mask_factor wearing_mask +
        0.2 * spec_distancing_factor social_distancing ≤ 0.61 := by
  cases loc <;> cases wearing_mask <;> cases social_distancing <;>
    norm_num [spec_location_factor, spec_mask_factor, spec_distancing_factor]

/-- C5: the probability model always returns a value, and that value
lies in the closed interval [0, 1]. -/
theorem probability_in_unit_interval (location : LocationProfile)
    (infected_count : Nat) (wearing_mask social_distancing : Bool) :
    ∃ p, get_infection_probability location infected_count wearing_mask social_distancing
        = some p ∧ 0 ≤ p ∧ p ≤ 1 := by
  by_cases h0 : infected_count = 0 ∨ location.location = Location.outdoorHike
  · refine ⟨0, ?_, le_refl 0, by norm_num⟩
    rw [get_infection_probability]
    exact if_pos h0
  · push_neg at h0
    refine ⟨spec_probability location.location infected_count wearing_mask social_distancing,
      get_infection_probability_eq location infected_count wearing_mask social_distancing
        h0.2 h0.1, ?_, ?_⟩ <;>
    · obtain ⟨hb0, hb1⟩ := spec_base_bounds location.location wearing_mask social_distancing
      have hm0 : (0:ℚ) ≤ ((min 10 infected_count : Nat) : ℚ) := Nat.cast_nonneg _
      have hm10 : ((min 10 infected_count : Nat) : ℚ) ≤ 10 := by
        exact_mod_cast Nat.min_le_left 10 infected_count
      have hf0 : (0:ℚ) ≤ 1 + ((min 10 infected_count : Nat) : ℚ) / 10 * 0.5 := by linarith
      have hf1 : 1 + ((min 10 infected_count : Nat) : ℚ) / 10 * 0.5 ≤ 1.5 := by linarith
      simp only [spec_probability]
      first
      | exact div_nonneg (mul_nonneg hb0 hf0) (by norm_num)
      | · have h3 := mul_le_mul hb1 hf1 hf0 (by norm_num : (0:ℚ) ≤ 0.61)
          linarith

/-- C8: for a fixed location and fixed behaviours, the probability is
non-decreasing in the infected count over the range 1..10. -/
theorem probability_monotone_in_count (location : LocationProfile)
    (wearing_mask social_distancing : Bool) (j k : Nat)
    (hj : 1 ≤ j) (hjk : j ≤ k) (hk : k ≤ 10) (pj pk : ℚ)
    (hpj : get_infection_probability location j wearing_mask social_distancing = some pj)
    (hpk : get_infection_probability location k wearing_mask social_distancing = some pk) :
    pj ≤ pk := by
  by_cases hloc : location.location = Location.outdoorHike
  · rw [get_infection_probability] at hpj hpk
    rw [if_pos (Or.inr hloc)] at hpj hpk
    obtain rfl := Option.some.inj hpj
    obtain rfl := Option.some.inj hpk
    exact le_refl 0
  · have hj0 : j ≠ 0 := by omega
    have hk0 : k ≠ 0 := by omega
    rw [get_infection_probability_eq _ _ _ _ hloc hj0] at hpj
    rw [get_infection_probability_eq _ _ _ _ hloc hk0] at hpk
    obtain rfl := Option.some.inj hpj
    obtain rfl := Option.some.inj hpk
    obtain ⟨hb0, hb1⟩ := spec_base_bounds location.location wearing_mask social_distancing
    have hjk' : ((j:ℚ)) ≤ (k:ℚ) := by exact_mod_cast hjk
    have hminj : min 10 j = j := Nat.min_eq_right (by omega)
    have hmink : min 10 k = k := Nat.min_eq_right hk
    simp only [spec_probability, hminj, hmink]
    have hfle : 1 + (j:ℚ) / 10 * 0.5 ≤ 1 + (k:ℚ) / 10 * 0.5 := by linarith
    have h3 := mul_le_mul_of_nonneg_left hfle hb0
    linarith [h3]

/-- Witness for C8 at concrete counts 2 and 5. -/
theorem probability_monotone_in_count_witness :
    1 ≤ 2 ∧ 2 ≤ 5 ∧ 5 ≤ 10 ∧
    get_infection_probability { id := 0, location := Location.livingRoom } 2 true true
        = some (2409/40000 : ℚ) ∧
    get_infection_probability { id := 0, location := Location.livingRoom } 5 true true
        = some (219/3200 : ℚ) ∧
    (2409/40000 : ℚ) ≤ (219/3200 : ℚ) := by
  have h2 : get_infection_probability { id := 0, location := Location.livingRoom } 2 true true
      = some (2409/40000 : ℚ) := by
    rw [get_infection_probability_eq _ _ _ _ (by decide) (by decide)]
    norm_num [spec_probability, spec_location_factor, spec_mask_factor, spec_distancing_factor]
  have h5 : get_infection_probability { id := 0, location := Location.livingRoom } 5 true true
      = some (219/3200 : ℚ) := by
    rw [get_infection_probability_eq _ _ _ _ (by decide) (by decide)]
    norm_num [spec_probability, spec_location_factor, spec_mask_factor, spec_distancing_factor]
  exact ⟨by norm_num, by norm_num, by norm_num, h2, h5,
    probability_monotone_in_count { id := 0, location := Location.livingRoom } true true 2 5
      (by norm_num) (by norm_num) (by norm_num) _ _ h2 h5⟩


/-! ## The day simulation: infected-set monotonicity -/

/-- Processing one person can only add that person to the infected set. -/
lemma process_person_infected_mono (day : Nat) (location : LocationProfile)
    (cnt : Nat) (oracle : Nat → Draw) (st : DayState) (person : PersonProfile) :
    st.infected_population ⊆
      (process_person day location cnt oracle st person).infected_population := by
  unfold process_person
  dsimp only
  split
  · exact Finset.subset_insert _ _
  · exact Finset.Subset.refl _

/-- Processing one person keeps the infected set inside the old set plus
that person. -/
lemma process_person_infected_subset (day : Nat) (location : LocationProfile)
    (cnt : Nat) (oracle : Nat → Draw) (st : DayState) (person : PersonProfile) :
    (process_person day location cnt oracle st person).infected_population ⊆
      insert person.id st.infected_population := by
  unfold process_person
  dsimp only
  split
  · exact Finset.Subset.refl _
  · exact Finset.subset_insert _ _

/-- Folding the per-person update over a list of people only grows the
infected set. -/
lemma foldl_process_person_infected_mono (day : Nat) (location : LocationProfile)
    (cnt : Nat) (oracle : Nat → Draw) (ps : List PersonProfile) (st : DayState) :
    st.infected_population ⊆
      (ps.foldl (process_person day location cnt oracle) st).infected_population := by
  induction ps generalizing st with
  | nil => exact Finset.Subset.refl _
  | cons p rest ih =>
    exact (process_person_infected_mono day location cnt oracle st p).trans (ih _)

/-- Processing one location group only grows the infected set. -/
lemma process_location_infected_mono (day : Nat) (oracle : Nat → Draw)
    (st : DayState) (group : LocationProfile × List PersonProfile) :
    st.infected_population ⊆ (process_location day oracle st group).infected_population :=
  foldl_process_person_infected_mono day group.1 _ oracle group.2 st

/-- Folding the per-location update over all groups only grows the
infected set. -/
lemma foldl_process_location_infected_mono (day : Nat) (oracle : Nat → Draw)
    (groups : List (LocationProfile × List PersonProfile)) (st : DayState) :
    st.infected_population ⊆
      (groups.foldl (process_location day oracle) st).infected_population := by
  induction groups generalizing st with
  | nil => exact Finset.Subset.refl _
  | cons g rest ih =>
    exact (process_location_infected_mono day oracle st g).trans (ih _)

/-- The infected set of the day update contains the starting infected set. -/
lemma update_infection_infected_mono (day : Nat)
    (groups : List (LocationProfile × List PersonProfile))
    (infected : Finset Nat) (oracle : Nat → Draw) :
    infected ⊆ (update_infection day groups infected oracle).2 :=
  foldl_process_location_infected_mono day oracle groups
    { day_summary := [], infected_population := infected }

/-- C1: a `simulate_day` call never removes anyone from the infected
set, so its cardinality is non-decreasing across calls. -/
theorem simulate_day_infected_mono (t : PeopleTracker) (choice : Nat → Nat)
    (oracle : Nat → Draw) :
    t.infected_population ⊆ (simulate_day t choice oracle).2.infected_population ∧
    t.infected_population.card ≤ (simulate_day t choice oracle).2.infected_population.card := by
  have h : t.infected_population ⊆ (simulate_day t choice oracle).2.infected_population :=
    update_infection_infected_mono t.simulated_day
      (determine_locations t.population t.available_locations choice)
      t.infected_population oracle
  exact ⟨h, Finset.card_le_card h⟩

/-! ## The day summary: one record per person -/

/-- Processing one person appends exactly one record, carrying that
person. -/
lemma process_person_summary_map (day : Nat) (location : LocationProfile)
    (cnt : Nat) (oracle : Nat → Draw) (st : DayState) (person : PersonProfile) :
    (process_person day location cnt oracle st person).day_summary.map PersonDay.person =
      st.day_summary.map PersonDay.person ++ [person] := by
  unfold process_person
  simp

/-- Folding the per-person update appends exactly the processed people,
in order. -/
lemma foldl_process_person_summary_map (day : Nat) (location : LocationProfile)
    (cnt : Nat) (oracle : Nat → Draw) (ps : List PersonProfile) (st : DayState) :
    ((ps.foldl (process_person day location cnt oracle) st).day_summary.map
        PersonDay.person) =
      st.day_summary.map PersonDay.person ++ ps := by
  induction ps generalizing st with
  | nil => simp
  | cons p rest ih =>
    rw [List.foldl_cons, ih, process_person_summary_map]
    simp

/-- Processing one location group appends exactly its occupants. -/
lemma process_location_summary_map (day : Nat) (oracle : Nat → Draw)
    (st : DayState) (group : LocationProfile × List PersonProfile) :
    ((process_location day oracle st group).day_summary.map PersonDay.person) =
      st.day_summary.map PersonDay.person ++ group.2 :=
  foldl_process_person_summary_map day group.1 _ oracle group.2 st

/-- Folding the per-location update appends the concatenation of all
groups. -/
lemma foldl_process_location_summary_map (day : Nat) (oracle : Nat → Draw)
    (groups : List (LocationProfile × List PersonProfile)) (st : DayState) :
    ((groups.foldl (process_location day oracle) st).day_summary.map PersonDay.person) =
      st.day_summary.map PersonDay.person ++ (groups.map Prod.snd).flatten := by
  induction groups generalizing st with
  | nil => simp
  | cons g rest ih =>
    rw [List.foldl_cons, ih, process_location_summary_map]
    simp

/-- Inserting a person into the grouping dictionary adds exactly that
person to the multiset of grouped people. -/
lemma group_insert_flatten_perm (groups : List (LocationProfile × List PersonProfile))
    (location : LocationProfile) (person : PersonProfile) :
    ((group_insert groups location person).map Prod.snd).flatten.Perm
      (((groups.map Prod.snd).flatten) ++ [person]) := by
  induction groups with
  | nil => simp [group_insert]
  | cons g rest ih =>
    obtain ⟨k, ps⟩ := g
    rw [group_insert]
    split
    · simp only [List.map_cons, List.flatten_cons]
      rw [List.append_assoc, List.append_assoc]
      exact List.Perm.append_left ps (List.perm_append_comm)
    · simp only [List.map_cons, List.flatten_cons]
      rw [List.append_assoc]
      exact List.Perm.append_left ps ih

/-- Grouping a list of people by location is a permutation of that
list, whatever the assignment. -/
lemma foldl_group_insert_flatten_perm (population : List PersonProfile)
    (f : PersonProfile → LocationProfile)
    (acc : List (LocationProfile × List PersonProfile)) :
    ((population.foldl (fun gs p => group_insert gs (f p) p) acc).map Prod.snd).flatten.Perm
      (((acc.map Prod.snd).flatten) ++ population) := by
  induction population generalizing acc with
  | nil => simp
  | cons p rest ih =>
    rw [List.foldl_cons]
    refine (ih _).trans ?_
    have h1 := (group_insert_flatten_perm acc (f p) p).append_right rest
    refine h1.trans ?_
    rw [List.append_assoc]
    rfl

/-- The people grouped by `determine_locations` are a permutation of
the population. -/
lemma determine_locations_flatten_perm (population : List PersonProfile)
    (available_locations : List LocationProfile) (choice : Nat → Nat) :
    ((determine_locations population available_locations choice).map Prod.snd).flatten.Perm
      population := by
  unfold determine_locations
  have h := foldl_group_insert_flatten_perm population
    (fun p => available_locations.getD (choice p.id) { id := 0, location := Location.livingRoom })
    []
  simpa using h

/-- The people carried by the day records are a permutation of the
grouped people. -/
lemma update_infection_summary_perm (day : Nat)
    (groups : List (LocationProfile × List PersonProfile))
    (infected : Finset Nat) (oracle : Nat → Draw) :
    ((update_infection day groups infected oracle).1.map PersonDay.person).Perm
      ((groups.map Prod.snd).flatten) := by
  unfold update_infection
  dsimp only
  refine (List.Perm.map PersonDay.person (List.mergeSort_perm _ _)).trans ?_
  rw [foldl_process_location_summary_map]
  simp

/-- The people carried by a day's records are a permutation of the
population. -/
lemma simulate_day_summary_perm (t : PeopleTracker) (choice : Nat → Nat)
    (oracle : Nat → Draw) :
    ((simulate_day t choice oracle).1.map PersonDay.person).Perm t.population := by
  unfold simulate_day
  dsimp only
  exact (update_infection_summary_perm _ _ _ _).trans
    (determine_locations_flatten_perm _ _ _)

/-- C2: one `simulate_day` call returns one record per person: the
summary has the population's length, and when ids are unique in the
population each id occurs in exactly one record. -/
theorem simulate_day_one_record_per_person (t : PeopleTracker) (choice : Nat → Nat)
    (oracle : Nat → Draw) (h : (t.population.map PersonProfile.id).Nodup) :
    (simulate_day t choice oracle).1.length = t.population.length ∧
    ∀ pid ∈ t.population.map PersonProfile.id,
      ((simulate_day t choice oracle).1.map (fun r => r.person.id)).count pid = 1 := by
  have hp := simulate_day_summary_perm t choice oracle
  constructor
  · have := hp.length_eq
    simpa using this
  · intro pid hpid
    have hp2 : ((simulate_day t choice oracle).1.map (fun r => r.person.id)).Perm
        (t.population.map PersonProfile.id) := by
      have := hp.map PersonProfile.id
      simpa [List.map_map, Function.comp] using this
    rw [hp2.count_eq]
    exact List.count_eq_one_of_mem h hpid


/-! ## The day summary: deterministic ordering -/

/-- The key comparison is transitive. -/
lemma key_le_trans (a b c : Nat × Nat × Nat)
    (hab : key_le a b = true) (hbc : key_le b c = true) : key_le a c = true := by
  simp only [key_le, decide_eq_true_eq] at hab hbc ⊢
  omega

/-- The key comparison is total. -/
lemma key_le_total (a b : Nat × Nat × Nat) : (key_le a b || key_le b a) = true := by
  simp only [key_le, Bool.or_eq_true, decide_eq_true_eq]
  omega

/-- C7: the records returned by `simulate_day` are sorted ascending by
(location category ordinal, location instance id, person id), whatever
the assignment and grouping order were. -/
theorem simulate_day_summary_sorted (t : PeopleTracker) (choice : Nat → Nat)
    (oracle : Nat → Draw) :
    List.Pairwise (fun a b => key_le (record_key a) (record_key b) = true)
      (simulate_day t choice oracle).1 := by
  unfold simulate_day update_infection
  dsimp only
  exact List.sorted_mergeSort
    (fun a b c => key_le_trans (record_key a) (record_key b) (record_key c))
    (fun a b => key_le_total (record_key a) (record_key b)) _

/-! ## The day summary: pre-visit status reflects the start-of-day infected set -/

/-- Whatever branch is taken, the `pre_covid` flag recorded for a
person is exactly their membership in the infected set consulted at
that moment. -/
lemma person_outcome_pre (cnt : Nat) (infected : Finset Nat)
    (location : LocationProfile) (person : PersonProfile)
    (wore_mask social_distanced : Bool) (infection_rand : ℚ) :
    (person_outcome cnt infected location person wore_mask social_distanced
      infection_rand).1 = decide (person.id ∈ infected) := by
  unfold person_outcome
  split_ifs with h1 h2 <;> simp_all

/-- Processing one person appends one record for that person whose
`pre_covid` flag mirrors the current infected set. -/
lemma process_person_day_summary_spec (day : Nat) (location : LocationProfile)
    (cnt : Nat) (oracle : Nat → Draw) (st : DayState) (person : PersonProfile) :
    ∃ r : PersonDay,
      (process_person day location cnt oracle st person).day_summary =
        st.day_summary ++ [r] ∧
      r.person = person ∧
      (r.pre_visit_covid = true ↔ person.id ∈ st.infected_population) := by
  refine ⟨_, rfl, rfl, ?_⟩
  dsimp only
  rw [person_outcome_pre]
  simp


/-- Invariant of the inner per-person fold: starting from a state whose
infected set contains the start-of-day set `S0`, whose records'
`pre_covid` flags mirror `S0`, and whose extra infections all belong to
already-recorded people, processing a list of not-yet-recorded people
with pairwise distinct ids preserves all three properties. -/
lemma foldl_process_person_inv (day : Nat) (location : LocationProfile) (cnt : Nat)
    (oracle : Nat → Draw) (S0 : Finset Nat) (ps : List PersonProfile) (st : DayState) :
    S0 ⊆ st.infected_population →
    (∀ r ∈ st.day_summary, (r.pre_visit_covid = true ↔ r.person.id ∈ S0)) →
    (∀ i ∈ st.infected_population,
      i ∈ S0 ∨ i ∈ st.day_summary.map (fun r => r.person.id)) →
    (∀ p ∈ ps, p.id ∉ st.day_summary.map (fun r => r.person.id)) →
    (ps.map PersonProfile.id).Nodup →
    S0 ⊆ (ps.foldl (process_person day location cnt oracle) st).infected_population ∧
    (∀ r ∈ (ps.foldl (process_person day location cnt oracle) st).day_summary,
      (r.pre_visit_covid = true ↔ r.person.id ∈ S0)) ∧
    (∀ i ∈ (ps.foldl (process_person day location cnt oracle) st).infected_population,
      i ∈ S0 ∨ i ∈ (ps.foldl (process_person day location cnt oracle) st).day_summary.map
        (fun r => r.person.id)) := by
  induction ps generalizing st with
  | nil => exact fun hmono hrec hnew _ _ => ⟨hmono, hrec, hnew⟩
  | cons p rest ih =>
    intro hmono hrec hnew hdisj hnd
    rw [List.foldl_cons]
    obtain ⟨r, hsum, hperson, hpre⟩ :=
      process_person_day_summary_spec day location cnt oracle st p
    have hmem_iff : p.id ∈ st.infected_population ↔ p.id ∈ S0 := by
      constructor
      · intro hin
        rcases hnew p.id hin with h | h
        · exact h
        · exact absurd h (hdisj p (List.mem_cons_self p rest))
      · intro h
        exact hmono h
    have hids1 : (process_person day location cnt oracle st p).day_summary.map
        (fun r => r.person.id) =
        st.day_summary.map (fun r => r.person.id) ++ [p.id] := by
      rw [hsum]
      simp [hperson]
    refine ih (process_person day location cnt oracle st p) ?_ ?_ ?_ ?_ ?_
    · exact hmono.trans (process_person_infected_mono day location cnt oracle st p)
    · intro r' hr'
      rw [hsum] at hr'
      rcases List.mem_append.mp hr' with hmem | hmem
      · exact hrec r' hmem
      · have hr'' : r' = r := by simpa using hmem
        subst hr''
        rw [hperson]
        exact hpre.trans hmem_iff
    · intro i hi
      have hsub := process_person_infected_subset day location cnt oracle st p hi
      rw [hids1]
      rcases Finset.mem_insert.mp hsub with hcase | hcase
      · right
        simp [hcase]
      · rcases hnew i hcase with hin | hin
        · exact Or.inl hin
        · exact Or.inr (List.mem_append.mpr (Or.inl hin))
    · intro q hq
      rw [hids1]
      intro hmem
      rcases List.mem_append.mp hmem with hcase | hcase
      · exact hdisj q (List.mem_cons_of_mem p hq) hcase
      · have heq : q.id = p.id := by simpa using hcase
        have hp_notin : p.id ∉ rest.map PersonProfile.id := (List.nodup_cons.mp hnd).1
        exact hp_notin (heq ▸ List.mem_map_of_mem PersonProfile.id hq)
    · exact (List.nodup_cons.mp hnd).2

/-- Invariant of the outer per-location fold: the same three properties
are preserved across all location groups when the grouped people are
not yet recorded and have pairwise distinct ids. -/
lemma foldl_process_location_inv (day : Nat) (oracle : Nat → Draw) (S0 : Finset Nat)
    (groups : List (LocationProfile × List PersonProfile)) (st : DayState) :
    S0 ⊆ st.infected_population →
    (∀ r ∈ st.day_summary, (r.pre_visit_covid = true ↔ r.person.id ∈ S0)) →
    (∀ i ∈ st.infected_population,
      i ∈ S0 ∨ i ∈ st.day_summary.map (fun r => r.person.id)) →
    (∀ p ∈ (groups.map Prod.snd).flatten,
      p.id ∉ st.day_summary.map (fun r => r.person.id)) →
    (((groups.map Prod.snd).flatten).map PersonProfile.id).Nodup →
    S0 ⊆ (groups.foldl (process_location day oracle) st).infected_population ∧
    (∀ r ∈ (groups.foldl (process_location day oracle) st).day_summary,
      (r.pre_visit_covid = true ↔ r.person.id ∈ S0)) ∧
    (∀ i ∈ (groups.foldl (process_location day oracle) st).infected_population,
      i ∈ S0 ∨ i ∈ (groups.foldl (process_location day oracle) st).day_summary.map
        (fun r => r.person.id)) := by
  induction groups generalizing st with
  | nil => exact fun hmono hrec hnew _ _ => ⟨hmono, hrec, hnew⟩
  | cons g rest ih =>
    intro hmono hrec hnew hdisj hnd
    rw [List.foldl_cons]
    have hflat : ((g :: rest).map Prod.snd).flatten = g.2 ++ (rest.map Prod.snd).flatten := by
      simp
    rw [hflat] at hdisj hnd
    have hnd_app : (g.2.map PersonProfile.id ++
        ((rest.map Prod.snd).flatten).map PersonProfile.id).Nodup := by
      simpa using hnd
    have hinner := foldl_process_person_inv day g.1
      ((g.2.filter (fun p => decide (p.id ∈ st.infected_population))).length)
      oracle S0 g.2 st hmono hrec hnew
      (fun p hp => hdisj p (List.mem_append.mpr (Or.inl hp)))
      hnd_app.of_append_left
    have hst1 : process_location day oracle st g =
        g.2.foldl (process_person day g.1
          ((g.2.filter (fun p => decide (p.id ∈ st.infected_population))).length) oracle) st :=
      rfl
    rw [hst1]
    have hids1 : (g.2.foldl (process_person day g.1
          ((g.2.filter (fun p => decide (p.id ∈ st.infected_population))).length) oracle)
        st).day_summary.map (fun r => r.person.id) =
        st.day_summary.map (fun r => r.person.id) ++ g.2.map PersonProfile.id := by
      have hmap := foldl_process_person_summary_map day g.1
        ((g.2.filter (fun p => decide (p.id ∈ st.infected_population))).length) oracle g.2 st
      have : (g.2.foldl (process_person day g.1
            ((g.2.filter (fun p => decide (p.id ∈ st.infected_population))).length) oracle)
          st).day_summary.map (fun r => r.person.id) =
          ((g.2.foldl (process_person day g.1
            ((g.2.filter (fun p => decide (p.id ∈ st.infected_population))).length) oracle)
          st).day_summary.map PersonDay.person).map PersonProfile.id := by
        rw [List.map_map]
        rfl
      rw [this, hmap]
      simp
    refine ih _ hinner.1 hinner.2.1 hinner.2.2 ?_ hnd_app.of_append_right
    · intro p hp
      rw [hids1]
      intro hmem
      rcases List.mem_append.mp hmem with hcase | hcase
      · exact hdisj p (List.mem_append.mpr (Or.inr hp)) hcase
      · exact (List.disjoint_of_nodup_append hnd_app) hcase
          (List.mem_map_of_mem PersonProfile.id hp)

/-- C6: a record's `pre_visit_infected` flag is true exactly when the
person already belonged to the infected set at the start of the
`simulate_day` call, i.e. before this day's update was applied for
them. -/
theorem pre_visit_infected_iff_start (t : PeopleTracker) (choice : Nat → Nat)
    (oracle : Nat → Draw) (h : (t.population.map PersonProfile.id).Nodup) :
    ∀ r ∈ (simulate_day t choice oracle).1,
      (r.pre_visit_covid = true ↔ r.person.id ∈ t.infected_population) := by
  intro r hr
  have hunfold : (simulate_day t choice oracle).1 =
      (((determine_locations t.population t.available_locations choice).foldl
        (process_location t.simulated_day oracle)
        { day_summary := [], infected_population := t.infected_population }).day_summary.mergeSort
        (fun a b => key_le (record_key a) (record_key b))) := rfl
  rw [hunfold] at hr
  have hmem := (List.mergeSort_perm _ _).mem_iff.mp hr
  have hflat := determine_locations_flatten_perm t.population t.available_locations choice
  have hnd : ((((determine_locations t.population t.available_locations choice).map
      Prod.snd).flatten).map PersonProfile.id).Nodup :=
    ((hflat.map PersonProfile.id).nodup_iff).mpr h
  have hres := foldl_process_location_inv t.simulated_day oracle t.infected_population
    (determine_locations t.population t.available_locations choice)
    { day_summary := [], infected_population := t.infected_population }
    (Finset.Subset.refl _)
    (by intro r' hr'; simp at hr')
    (fun i hi => Or.inl hi)
    (by intro p hp; simp)
    hnd
  exact hres.2.1 r hmem


/-! ## Construction -/

/-- With a non-positive population count the constructor succeeds with
an empty population and an empty infected set, whatever the rates. -/
lemma init_nonpos_ok (pc : Int) (ir mr sdr : ℚ) (mask_rand sd_rand : Nat → ℚ)
    (ri : Location → Nat) (pick : Nat → Nat) (hpc : pc ≤ 0) :
    PeopleTracker.init pc ir mr sdr mask_rand sd_rand ri pick =
      Except.ok
        { simulated_day := 0, population := [],
          available_locations := generate_available_locations ri,
          infected_population := ∅ } := by
  have hpop : generate_population pc mr sdr mask_rand sd_rand = [] := by
    unfold generate_population
    rw [Int.toNat_of_nonpos hpc]
    rfl
  have hsample : get_initial_infected_population [] ir pick = Except.ok [] := by
    unfold get_initial_infected_population sample int_trunc
    simp [sample_go]
  unfold PeopleTracker.init
  rw [hpop]
  dsimp only
  rw [hsample]
  simp

/-- C9 counterexample: an invalid configuration — here a negative
population count with all rates inside [0,1] — does not fail fast: the
constructor returns a tracker state. -/
theorem init_accepts_negative_population :
    PeopleTracker.init (-1) (3/100) (7/10) (1/2) (fun i => 1/2) (fun i => 1/2)
        (fun l => 0) (fun i => 0) =
      Except.ok
        { simulated_day := 0, population := [],
          available_locations := generate_available_locations (fun l => 0),
          infected_population := ∅ } :=
  init_nonpos_ok (-1) (3/100) (7/10) (1/2) _ _ _ _ (by decide)

/-- C9 as amended: construction performs no validation; the only
construction-time failure is the `ValueError` from `random.sample`,
raised exactly when `int(len(population) * initial_infection_rate)` is
negative or exceeds the population size. -/
theorem init_error_iff_sample_bounds (pc : Int) (ir mr sdr : ℚ)
    (mask_rand sd_rand : Nat → ℚ) (ri : Location → Nat) (pick : Nat → Nat) :
    (∃ e, PeopleTracker.init pc ir mr sdr mask_rand sd_rand ri pick = Except.error e) ↔
      (int_trunc (((generate_population pc mr sdr mask_rand sd_rand).length : ℚ) * ir) < 0 ∨
        ((generate_population pc mr sdr mask_rand sd_rand).length : Int) <
          int_trunc (((generate_population pc mr sdr mask_rand sd_rand).length : ℚ) * ir)) := by
  unfold PeopleTracker.init get_initial_infected_population sample
  by_cases hg :
      (int_trunc (((generate_population pc mr sdr mask_rand sd_rand).length : ℚ) * ir) < 0 ∨
        ((generate_population pc mr sdr mask_rand sd_rand).length : Int) <
          int_trunc (((generate_population pc mr sdr mask_rand sd_rand).length : ℚ) * ir))
  · simp [hg]
  · simp [hg]

/-- C10: a non-positive population count with rates in [0,1] raises no
error: the constructor succeeds with an empty population list and an
empty infected set. -/
theorem init_nonpositive_population_ok (pc : Int) (ir mr sdr : ℚ)
    (mask_rand sd_rand : Nat → ℚ) (ri : Location → Nat) (pick : Nat → Nat)
    (hpc : pc ≤ 0) (hir0 : 0 ≤ ir) (hir1 : ir ≤ 1) (hmr0 : 0 ≤ mr) (hmr1 : mr ≤ 1)
    (hsdr0 : 0 ≤ sdr) (hsdr1 : sdr ≤ 1) :
    PeopleTracker.init pc ir mr sdr mask_rand sd_rand ri pick =
      Except.ok
        { simulated_day := 0, population := [],
          available_locations := generate_available_locations ri,
          infected_population := ∅ } :=
  init_nonpos_ok pc ir mr sdr mask_rand sd_rand ri pick hpc

/-- Witness for C10 at concrete arguments. -/
theorem init_nonpositive_population_ok_witness :
    (-2 : Int) ≤ 0 ∧ (0:ℚ) ≤ 1/2 ∧ (1/2:ℚ) ≤ 1 ∧
    PeopleTracker.init (-2) (1/2) (1/2) (1/2) (fun i => 1/2) (fun i => 1/2) (fun l => 0)
        (fun i => 0) =
      Except.ok
        { simulated_day := 0, population := [],
          available_locations := generate_available_locations (fun l => 0),
          infected_population := ∅ } := by
  refine ⟨by decide, by norm_num, by norm_num, ?_⟩
  exact init_nonpositive_population_ok (-2) (1/2) (1/2) (1/2) (fun i => 1/2) (fun i => 1/2)
    (fun l => 0) (fun i => 0) (by decide) (by norm_num) (by norm_num) (by norm_num)
    (by norm_num) (by norm_num) (by norm_num)

/-! ## Witnesses for the day-simulation claims -/

/-- Witness for C2 on the concrete two-person tracker. -/
theorem simulate_day_one_record_per_person_witness :
    (simulate_day witness_tracker witness_choice witness_oracle).1.length =
      witness_tracker.population.length ∧
    ((simulate_day witness_tracker witness_choice witness_oracle).1.map
      (fun r => r.person.id)).count 0 = 1 := by
  have happ := simulate_day_one_record_per_person witness_tracker witness_choice
    witness_oracle (by decide)
  exact ⟨happ.1, happ.2 0 (by decide)⟩

/-- Witness for C6 on the concrete two-person tracker: the first
returned record's pre-visit flag mirrors start-of-day infection. -/
theorem pre_visit_infected_iff_start_witness :
    (((simulate_day witness_tracker witness_choice witness_oracle).1.headD
        witness_dummy_record).pre_visit_covid = true ↔
      ((simulate_day witness_tracker witness_choice witness_oracle).1.headD
        witness_dummy_record).person.id ∈ witness_tracker.infected_population) := by
  have hp := simulate_day_summary_perm witness_tracker witness_choice witness_oracle
  have hlen : (simulate_day witness_tracker witness_choice witness_oracle).1.length = 2 := by
    have := hp.length_eq
    simpa [witness_tracker] using this
  obtain ⟨a, tl, hcons⟩ : ∃ a tl,
      (simulate_day witness_tracker witness_choice witness_oracle).1 = a :: tl := by
    cases hc : (simulate_day witness_tracker witness_choice witness_oracle).1 with
    | nil => rw [hc] at hlen; simp at hlen
    | cons a tl => exact ⟨a, tl, rfl⟩
  rw [hcons, List.headD_cons]
  exact pre_visit_infected_iff_start witness_tracker witness_choice witness_oracle
    (by decide) a (hcons ▸ List.mem_cons_self a tl)

end ContactTracing
